import Mathlib

/-!
# qt6ct platform theme: settings resolution, style-sheet loading and re-apply

A shallow embedding of `src/qt6ct-qtplugin/qt6ctplatformtheme.cpp`
(`Qt6CTPlatformTheme`), built with `QT_WIDGETS_LIB` defined.

* Text (`QString`) is a list of characters; the text of a file is the
  already decoded text (`QString::fromUtf8(file.readAll())`).
* The configuration file is the parsed `QSettings` snapshot: a partial map
  from (group, key) to a `QVariant`.
* The member variables of `Qt6CTPlatformTheme`, together with the pieces of
  application state the class writes (`qApp->styleSheet()`, two application
  attributes, the posted notifications), form the record `Theme`; member
  functions are state transformers on it.
* Library behaviour of Qt that the code relies on (`QVariant` conversions,
  `QString::indexOf`, `QString::remove`, the regular-expression replace,
  `QTimer`) follows the Qt documentation and is marked as such.
-/

namespace Qt6ct

/-! ## Text -/

/-- A `QString`, as the list of its characters. -/
abbrev QString := List Char

/-- The call `s.endsWith(QChar::LineFeed)`. -/
def endsWithLineFeed (s : QString) : Bool :=
  s.getLast? == some '\n'

/-- The call `content.replace(QRegularExpression("//.*\n"), "\n")`, scanning
left to right. The flag tells whether the scan is inside a match. A match
starts at a `//` that has a line feed somewhere after it (`.` matches every
character but the line feed, so `.*` runs to the first line feed, and without
one there is no match at that position); the whole match, line feed included,
is replaced by one line feed and the scan goes on behind it. -/
def replaceComments : Bool → QString → QString
  | _, [] => []
  | true, c :: cs =>
    if c = '\n' then '\n' :: replaceComments false cs else replaceComments true cs
  | false, c :: cs =>
    if c = '/' ∧ cs.head? = some '/' ∧ '\n' ∈ cs then replaceComments true cs
    else c :: replaceComments false cs

/-- The comment stripping of `loadStyleSheets` (lines 389-390). -/
def stripComments (content : QString) : QString :=
  replaceComments false content

/-! ## Files -/

/-- What the file system holds at a path: no file, a file that cannot be
opened for reading, or a file with its text. -/
inductive FileState where
  | missing
  | unreadable
  | readable (content : QString)
  deriving DecidableEq, Repr

/-- The call `QFile::exists(path)`. -/
def FileState.fileExists : FileState → Bool
  | .missing => false
  | _ => true

/-- The text `QString::fromUtf8(file.readAll())` after `file.open(ReadOnly)`,
whose result the code does not test: a file that failed to open reads as
empty. -/
def FileState.readAll : FileState → QString
  | .readable content => content
  | _ => []

/-- One turn of the loop of `loadStyleSheets` (lines 380-387). -/
def appendStyleSheet (files : QString → FileState) (content path : QString) : QString :=
  if (files path).fileExists then
    let content := content ++ (files path).readAll
    if endsWithLineFeed content then content else content ++ ['\n']
  else content

/-- The loop of `loadStyleSheets`: the text before the comments are stripped. -/
def concatStyleSheets (files : QString → FileState) (paths : List QString) : QString :=
  paths.foldl (appendStyleSheet files) []

/-- `Qt6CTPlatformTheme::loadStyleSheets` (lines 375-392). -/
def loadStyleSheets (files : QString → FileState) (paths : List QString) : QString :=
  stripComments (concatStyleSheets files paths)

/-! ## `QVariant` and the settings snapshot -/

/-- The values a `QVariant` holds in this code: what `QSettings` returns for an
INI entry (a string or a string list), the defaults the code passes to
`QSettings::value` and the values of theme hints. -/
inductive QVariant where
  | invalid
  | bool (b : Bool)
  | int (i : Int)
  | string (s : QString)
  | stringList (l : List QString)
  deriving DecidableEq, Repr

/-- The test `QChar::isSpace`: the space, U+0009..U+000D, U+0085, U+00A0 and
the characters of the Unicode separator categories. -/
def isSpace (c : Char) : Bool :=
  c.toNat == 0x20 || (0x09 ≤ c.toNat && c.toNat ≤ 0x0d) || c.toNat == 0x85 ||
  c.toNat == 0xa0 || c.toNat == 0x1680 || (0x2000 ≤ c.toNat && c.toNat ≤ 0x200a) ||
  c.toNat == 0x2028 || c.toNat == 0x2029 || c.toNat == 0x202f || c.toNat == 0x205f ||
  c.toNat == 0x3000

/-- The text without its leading and trailing white space. -/
def trimmed (s : QString) : QString :=
  ((s.dropWhile isSpace).reverse.dropWhile isSpace).reverse

/-- The value of a non-empty run of decimal digits. -/
def digitsValue (ds : QString) : Option Nat :=
  if ds ≠ [] ∧ ds.all Char.isDigit then
    some (ds.foldl (fun n c => 10 * n + (c.toNat - 48)) 0)
  else none

/-- Reading a text as a decimal integer, the way `QString::toInt` does in
base 10: white space around it is ignored, then an optional sign and at least
one digit, and nothing else. `none` is a failed conversion. -/
def parseDecimal (s : QString) : Option Int :=
  match trimmed s with
  | '-' :: ds => (digitsValue ds).map (fun n => -(n : Int))
  | '+' :: ds => (digitsValue ds).map (fun n => (n : Int))
  | ds => (digitsValue ds).map (fun n => (n : Int))

/-- The call `QString::toInt()`: "Returns 0 if the conversion fails", which
includes a number outside the range of `int`. -/
def qstringToInt (s : QString) : Int :=
  match parseDecimal s with
  | some n => if -2147483648 ≤ n ∧ n ≤ 2147483647 then n else 0
  | none => 0

/-- The call `QVariant::toInt()`: the number itself, a boolean as 0 or 1, a
string through `QString::toInt`, and 0 for what cannot be converted. -/
def QVariant.toInt : QVariant → Int
  | .int i => i
  | .bool b => if b then 1 else 0
  | .string s => qstringToInt s
  | _ => 0

/-- The call `QVariant::toBool()`: a number is true when non-zero, a string is
true unless its lower-case content is empty, "0" or "false"; everything else
is false. -/
def QVariant.toBool : QVariant → Bool
  | .bool b => b
  | .int i => i != 0
  | .string s =>
    !(s.isEmpty || s == "0".toList || s.map Char.toLower == "false".toList)
  | _ => false

/-- The call `QVariant::toString()`: a string list converts only when it has
exactly one item; what cannot be converted gives the empty string. -/
def QVariant.toQString : QVariant → QString
  | .string s => s
  | .bool b => if b then "true".toList else "false".toList
  | .int i => (toString i).toList
  | .stringList [s] => s
  | _ => []

/-- The call `QVariant::toStringList()`: the list itself, a string as the list
of that one string, otherwise the empty list. -/
def QVariant.toStringList : QVariant → List QString
  | .stringList l => l
  | .string s => [s]
  | _ => []

/-- The parsed configuration file: the entry of a group and key, if present. -/
abbrev Settings := String → String → Option QVariant

/-- The call `settings.value(key, defaultValue)` inside `beginGroup(group)`:
the stored value when the key is present, the default otherwise. -/
def Settings.value (settings : Settings) (group key : String) (defaultValue : QVariant) :
    QVariant :=
  (settings group key).getD defaultValue

/-- The test `settings.childKeys().contains(key)` inside `beginGroup(group)`. -/
def Settings.hasKey (settings : Settings) (group key : String) : Bool :=
  (settings group key).isSome

/-- The settings with one entry set. -/
def Settings.insert (settings : Settings) (group key : String) (v : QVariant) : Settings :=
  fun g k => if g = group ∧ k = key then some v else settings g k

/-- The configuration file without any entry. -/
def Settings.empty : Settings := fun _ _ => none

/-! ## Toolkit types -/

/-- A palette: the colours of its roles. -/
structure QPalette where
  colors : List Nat
  deriving DecidableEq, Repr

/-- A font descriptor. -/
structure QFont where
  family : QString
  pointSize : Int
  weight : Int
  italic : Bool
  deriving DecidableEq, Repr

/-- The hints of `QPlatformTheme::ThemeHint` that `themeHint` distinguishes;
every other hint of the enumeration is `other`. -/
inductive ThemeHint where
  | CursorFlashTime
  | MouseDoubleClickInterval
  | ToolButtonStyle
  | SystemIconThemeName
  | StyleNames
  | IconThemeSearchPaths
  | DialogButtonBoxLayout
  | KeyboardScheme
  | UiEffects
  | WheelScrollLines
  | ShowShortcutsInContextMenus
  | other (n : Nat)
  deriving DecidableEq, Repr

/-- The flag `QPlatformTheme::GeneralUiEffect`. -/
def GeneralUiEffect : Nat := 0x1

/-- The flag `QPlatformTheme::AnimateMenuUiEffect`. -/
def AnimateMenuUiEffect : Nat := 0x2

/-- The flag `QPlatformTheme::FadeMenuUiEffect`. -/
def FadeMenuUiEffect : Nat := 0x4

/-- The flag `QPlatformTheme::AnimateComboUiEffect`. -/
def AnimateComboUiEffect : Nat := 0x8

/-- The flag `QPlatformTheme::AnimateTooltipUiEffect`. -/
def AnimateTooltipUiEffect : Nat := 0x10

/-- The flag `QPlatformTheme::FadeTooltipUiEffect`. -/
def FadeTooltipUiEffect : Nat := 0x20

/-- The flag `QPlatformTheme::AnimateToolBoxUiEffect`. -/
def AnimateToolBoxUiEffect : Nat := 0x40

/-- The value of `Qt::ToolButtonFollowStyle`. -/
def ToolButtonFollowStyle : Int := 4

/-- The value of `Qt::Unchecked`. -/
def Unchecked : Int := 0

/-- The value of `Qt::PartiallyChecked`. -/
def PartiallyChecked : Int := 1

/-- The value of `Qt::Checked`. -/
def Checked : Int := 2

/-- What stays the same during the life of the process: the application, the
generic Unix theme the class derives from, and the toolkit functions used. -/
structure Platform where
  /-- The flag `QGuiApplication::desktopSettingsAware()`. -/
  desktopSettingsAware : Bool
  /-- The result of `hasWidgets()`: `qApp` is a `QApplication`. -/
  hasWidgets : Bool
  /-- The path `QCoreApplication::applicationFilePath()`. -/
  applicationFilePath : QString
  /-- The hints of `QGenericUnixTheme::themeHint`. -/
  genericThemeHint : ThemeHint → QVariant
  /-- The palettes of `QGenericUnixTheme::palette`, by palette type. -/
  genericPalette : Nat → Option QPalette
  /-- The palette `*QPlatformTheme::palette(SystemPalette)`. -/
  systemPalette : QPalette
  /-- The font `*QGenericUnixTheme::font(SystemFont)`. -/
  genericSystemFont : QFont
  /-- The font `*QGenericUnixTheme::font(FixedFont)`. -/
  genericFixedFont : QFont
  /-- The call `font.fromString(text)`: the font afterwards. -/
  fontFromString : QFont → QString → QFont
  /-- The list `QPlatformThemeFactory::keys()`. -/
  themeKeys : List QString
  /-- The list `Qt6CT::iconPaths()`. -/
  iconPaths : List QString

/-- What one run of `readSettings` reads from outside the process. -/
structure Config where
  /-- The parsed file `Qt6CT::configFile()`. -/
  settings : Settings
  /-- The files of the file system. -/
  files : QString → FileState
  /-- The function `Qt6CT::resolvePath`, which replaces environment variables. -/
  resolvePath : QString → QString
  /-- The function `Qt6CT::loadColorScheme(path, fallback)`. -/
  loadColorScheme : QString → QPalette → QPalette

/-! ## The theme object -/

/-- What `applySettings` sends to the toolkit, in the order sent. -/
inductive Notification where
  /-- The call `hash->clear()` on a non-empty `qt_app_fonts_hash()`. -/
  | clearFontHash
  /-- The call `Qt6CT::reloadStyleInstanceSettings()`. -/
  | reloadStyleInstanceSettings
  /-- The call `QWindowSystemInterface::handleThemeChange()`. -/
  | handleThemeChange
  /-- The event `ApplicationFontChange` posted to `qGuiApp`. -/
  | applicationFontChange
  /-- The event `ApplicationFontChange` posted to every graphics scene. -/
  | sceneFontChange
  /-- The event `ThemeChange` posted to every widget. -/
  | widgetThemeChange
  deriving DecidableEq, Repr

/-- The members of `Qt6CTPlatformTheme` and the application state it writes. -/
structure Theme where
  m_update : Bool
  m_isIgnored : Bool
  m_palette : Option QPalette
  m_style : QString
  m_iconTheme : QString
  /-- The platform theme created for the standard dialogs, by its key. -/
  m_theme : Option QString
  m_generalFont : QFont
  m_fixedFont : QFont
  m_doubleClickInterval : Int
  m_cursorFlashTime : Int
  m_showShortcutsInContextMenus : Bool
  m_buttonBoxLayout : Int
  m_keyboardScheme : Int
  m_toolButtonStyle : Int
  m_wheelScrollLines : Int
  m_uiEffects : Int
  m_userStyleSheet : QString
  m_prevStyleSheet : QString
  /-- The application style sheet `qApp->styleSheet()`. -/
  appStyleSheet : QString
  /-- The application attribute `Qt::AA_DontShowIconsInMenus`. -/
  dontShowIconsInMenus : Bool
  /-- The application attribute `Qt::AA_ForceRasterWidgets`. -/
  forceRasterWidgets : Bool
  /-- What has been sent to the toolkit so far. -/
  sent : List Notification
  deriving DecidableEq, Repr

/-- Modelled from the spec: the member initialisers of `qt6ctplatformtheme.h`,
which is not among the sources. The object before the first `readSettings` is
the spec's `Uninitialized` state: nothing loaded or applied yet (`m_update`
false), the process not ignored (that branch is entered by the first load),
the fonts as set at lines 70-71. The other members are overwritten by the
first `readSettings`; their values here are placeholders. -/
def Theme.initial (plat : Platform) (appStyleSheet : QString) : Theme :=
  { m_update := false, m_isIgnored := false, m_palette := none, m_style := [],
    m_iconTheme := [], m_theme := none,
    m_generalFont := plat.genericSystemFont, m_fixedFont := plat.genericFixedFont,
    m_doubleClickInterval := 0, m_cursorFlashTime := 0,
    m_showShortcutsInContextMenus := false, m_buttonBoxLayout := 0,
    m_keyboardScheme := 0, m_toolButtonStyle := 0, m_wheelScrollLines := 0,
    m_uiEffects := 0, m_userStyleSheet := [], m_prevStyleSheet := [],
    appStyleSheet := appStyleSheet, dontShowIconsInMenus := false,
    forceRasterWidgets := false, sent := [] }

/-- The effect flags of lines 330-344: starting from 0, the flag of each of the
seven names is or-ed in when the list contains the name. -/
def loadEffects (effectList : List QString) : Nat :=
  let e := 0
  let e := if effectList.contains "General".toList then e ||| GeneralUiEffect else e
  let e := if effectList.contains "AnimateMenu".toList then e ||| AnimateMenuUiEffect else e
  let e := if effectList.contains "FadeMenu".toList then e ||| FadeMenuUiEffect else e
  let e := if effectList.contains "AnimateCombo".toList then e ||| AnimateComboUiEffect else e
  let e := if effectList.contains "AnimateTooltip".toList then e ||| AnimateTooltipUiEffect else e
  let e := if effectList.contains "FadeTooltip".toList then e ||| FadeTooltipUiEffect else e
  let e := if effectList.contains "AnimateToolBox".toList then e ||| AnimateToolBoxUiEffect else e
  e

/-- `Qt6CTPlatformTheme::readSettings` (lines 274-366). -/
def readSettings (plat : Platform) (cfg : Config) (st : Theme) : Theme :=
  let settings := cfg.settings
  -- group "Appearance"
  let m_style := (settings.value "Appearance" "style" (.string "Fusion".toList)).toQString
  let schemePath := (settings.value "Appearance" "color_scheme_path" .invalid).toQString
  let m_palette : Option QPalette :=
    if !st.m_isIgnored && !schemePath.isEmpty &&
        (settings.value "Appearance" "custom_palette" (.bool false)).toBool then
      some (cfg.loadColorScheme (cfg.resolvePath schemePath) plat.systemPalette)
    else none
  let m_iconTheme := (settings.value "Appearance" "icon_theme" .invalid).toQString
  let m_theme : Option QString :=
    if !st.m_update then
      let dialogs :=
        (settings.value "Appearance" "standard_dialogs" (.string "default".toList)).toQString
      let dialogs :=
        if "gtk2".toList.isSuffixOf m_style && dialogs == "gtk3".toList then "gtk2".toList
        else dialogs
      if plat.themeKeys.contains dialogs then some dialogs else st.m_theme
    else st.m_theme
  -- group "Fonts"
  let m_generalFont := plat.fontFromString plat.genericSystemFont
    (settings.value "Fonts" "general" .invalid).toQString
  let m_fixedFont := plat.fontFromString plat.genericFixedFont
    (settings.value "Fonts" "fixed" .invalid).toQString
  -- group "Interface"
  let m_doubleClickInterval := (plat.genericThemeHint .MouseDoubleClickInterval).toInt
  let m_doubleClickInterval :=
    (settings.value "Interface" "double_click_interval" (.int m_doubleClickInterval)).toInt
  let m_cursorFlashTime := (plat.genericThemeHint .CursorFlashTime).toInt
  let m_cursorFlashTime :=
    (settings.value "Interface" "cursor_flash_time" (.int m_cursorFlashTime)).toInt
  let m_showShortcutsInContextMenus :=
    (settings.value "Interface" "show_shortcuts_in_context_menus" (.bool true)).toBool
  let m_buttonBoxLayout := (plat.genericThemeHint .DialogButtonBoxLayout).toInt
  let m_buttonBoxLayout :=
    (settings.value "Interface" "buttonbox_layout" (.int m_buttonBoxLayout)).toInt
  let m_keyboardScheme := (plat.genericThemeHint .KeyboardScheme).toInt
  let m_keyboardScheme :=
    (settings.value "Interface" "keyboard_scheme" (.int m_keyboardScheme)).toInt
  let dontShowIconsInMenus :=
    !(settings.value "Interface" "menus_have_icons" (.bool true)).toBool
  let m_toolButtonStyle :=
    (settings.value "Interface" "toolbutton_style" (.int ToolButtonFollowStyle)).toInt
  let m_wheelScrollLines := (settings.value "Interface" "wheel_scroll_lines" (.int 3)).toInt
  -- load effects
  let m_uiEffects := (plat.genericThemeHint .UiEffects).toInt
  let m_uiEffects : Int :=
    if settings.hasKey "Interface" "gui_effects" then
      let effectList := (settings.value "Interface" "gui_effects" .invalid).toStringList
      (loadEffects effectList : Int)
    else m_uiEffects
  -- load style sheets
  let qssPaths := (settings.value "Interface" "stylesheets" .invalid).toStringList
  let m_userStyleSheet := loadStyleSheets cfg.files qssPaths
  -- load troubleshooting
  let m_isIgnored :=
    if !st.m_update then
      (settings.value "Troubleshooting" "ignored_applications" .invalid).toStringList.contains
        plat.applicationFilePath
    else st.m_isIgnored
  let forceRasterWidgets :=
    if !st.m_update then
      let force :=
        (settings.value "Troubleshooting" "force_raster_widgets" (.int PartiallyChecked)).toInt
      if !m_isIgnored && force == Checked then true
      else if !m_isIgnored && force == Unchecked then false
      else st.forceRasterWidgets
    else st.forceRasterWidgets
  { st with
    m_palette := m_palette, m_style := m_style, m_iconTheme := m_iconTheme,
    m_theme := m_theme, m_generalFont := m_generalFont, m_fixedFont := m_fixedFont,
    m_doubleClickInterval := m_doubleClickInterval, m_cursorFlashTime := m_cursorFlashTime,
    m_showShortcutsInContextMenus := m_showShortcutsInContextMenus,
    m_buttonBoxLayout := m_buttonBoxLayout, m_keyboardScheme := m_keyboardScheme,
    m_toolButtonStyle := m_toolButtonStyle, m_wheelScrollLines := m_wheelScrollLines,
    m_uiEffects := m_uiEffects, m_userStyleSheet := m_userStyleSheet,
    m_isIgnored := m_isIgnored, dontShowIconsInMenus := dontShowIconsInMenus,
    forceRasterWidgets := forceRasterWidgets }

/-- The search of `QString::indexOf(str)` from the start of the text: the
position of the first occurrence, counted from `pos`, or `none` (the -1 of Qt). -/
def indexOfFrom (pos : Nat) : QString → QString → Option Nat
  | [], str => if str.isEmpty then some pos else none
  | c :: cs, str =>
    if str.isPrefixOf (c :: cs) then some pos else indexOfFrom (pos + 1) cs str

/-- The call `text.indexOf(str)`. -/
def indexOf (text str : QString) : Option Nat :=
  indexOfFrom 0 text str

/-- The call `text.remove(position, n)`. -/
def remove (text : QString) (position n : Nat) : QString :=
  text.take position ++ text.drop (position + n)

/-- Sending notifications to the toolkit. -/
def Theme.notify (st : Theme) (ns : List Notification) : Theme :=
  { st with sent := st.sent ++ ns }

/-- The style-sheet block of `applySettings` (lines 211-227). -/
def applyStyleSheet (st : Theme) : Theme :=
  if st.m_userStyleSheet != st.m_prevStyleSheet then
    let appStyleSheet := st.appStyleSheet
    let st :=
      match indexOf appStyleSheet st.m_prevStyleSheet with
      | some prevIndex =>
        let appStyleSheet := remove appStyleSheet prevIndex st.m_prevStyleSheet.length
        { st with appStyleSheet := st.m_userStyleSheet ++ appStyleSheet }
      | none => st
    { st with m_prevStyleSheet := st.m_userStyleSheet }
  else st

/-- `Qt6CTPlatformTheme::applySettings` (lines 193-251). -/
def applySettings (plat : Platform) (st : Theme) : Theme :=
  if !plat.desktopSettingsAware || st.m_isIgnored then
    { st with m_update := true }
  else
    -- lines 202-228
    let st :=
      if plat.hasWidgets then
        let st :=
          if st.m_update then st.notify [.clearFontHash, .reloadStyleInstanceSettings]
          else st
        applyStyleSheet st
      else st
    -- lines 231-235
    let st :=
      if st.m_update then st.notify [.handleThemeChange, .applicationFontChange]
      else st
    -- lines 238-247
    let st :=
      if plat.hasWidgets && st.m_update then st.notify [.sceneFontChange, .widgetThemeChange]
      else st
    { st with m_update := true }

/-- `Qt6CTPlatformTheme::updateSettings` (lines 266-271). -/
def updateSettings (plat : Platform) (cfg : Config) (st : Theme) : Theme :=
  applySettings plat (readSettings plat cfg st)

/-- `Qt6CTPlatformTheme::palette` (lines 104-108). -/
def palette (plat : Platform) (st : Theme) (type : Nat) : Option QPalette :=
  match st.m_palette with
  | some p => some p
  | none => plat.genericPalette type

/-- `Qt6CTPlatformTheme::font` (lines 110-115); the flag says that the fixed
font is asked for. -/
def font (st : Theme) (fixedFont : Bool) : QFont :=
  if fixedFont then st.m_fixedFont else st.m_generalFont

/-- `Qt6CTPlatformTheme::themeHint` (lines 117-150). -/
def themeHint (plat : Platform) (st : Theme) (hint : ThemeHint) : QVariant :=
  if st.m_isIgnored then plat.genericThemeHint hint
  else
    match hint with
    | .CursorFlashTime => .int st.m_cursorFlashTime
    | .MouseDoubleClickInterval => .int st.m_doubleClickInterval
    | .ToolButtonStyle => .int st.m_toolButtonStyle
    | .SystemIconThemeName => .string st.m_iconTheme
    | .StyleNames => .stringList ["qt6ct-style".toList]
    | .IconThemeSearchPaths => .stringList plat.iconPaths
    | .DialogButtonBoxLayout => .int st.m_buttonBoxLayout
    | .KeyboardScheme => .int st.m_keyboardScheme
    | .UiEffects => .int st.m_uiEffects
    | .WheelScrollLines => .int st.m_wheelScrollLines
    | .ShowShortcutsInContextMenus => .bool st.m_showShortcutsInContextMenus
    | .other _ => plat.genericThemeHint hint

/-- The object after the configuration has changed and been reloaded, once
for each configuration of the list (the slot `updateSettings` run by the
watcher). -/
def reloads (plat : Platform) (cfgs : List Config) (st : Theme) : Theme :=
  cfgs.foldl (fun st cfg => updateSettings plat cfg st) st

/-! ## The change watcher -/

/-- The interval of the timer, `timer->setInterval(3000)`, in milliseconds. -/
def debounceInterval : Nat := 3000

/-- The watcher and timer of `createFSWatcher` (lines 254-264) on the event
loop, with the time in milliseconds. The timer is single-shot: it is either
not running or has one expiry time. -/
structure Watcher where
  /-- When the running timer expires; `none` when the timer is not running. -/
  expiry : Option Nat
  /-- The times at which `timeout()` has run the slot `updateSettings`. -/
  reloadTimes : List Nat
  deriving DecidableEq, Repr

/-- The watcher right after `createFSWatcher`: the timer is not started. -/
def Watcher.idle : Watcher :=
  { expiry := none, reloadTimes := [] }

/-- The event loop reaches the time `now`: a running timer whose expiry time
has come emits `timeout()`, which runs `updateSettings`, and being single-shot
stops. -/
def Watcher.elapse (now : Nat) (w : Watcher) : Watcher :=
  match w.expiry with
  | some t => if t ≤ now then { expiry := none, reloadTimes := w.reloadTimes ++ [t] } else w
  | none => w

/-- The signal `directoryChanged` delivered at the time `now` to the slot
`start()` of the timer: "Starts or restarts the timer with the timeout
specified in interval. If the timer is already running, it will be stopped
and restarted." -/
def Watcher.directoryChanged (now : Nat) (w : Watcher) : Watcher :=
  { w.elapse now with expiry := some (now + debounceInterval) }

/-- The notifications of a list of times, delivered in that order. -/
def Watcher.notifications (times : List Nat) (w : Watcher) : Watcher :=
  times.foldl (fun w now => w.directoryChanged now) w

/-! ## Notions of the specification -/

/-- A fragment with its last line terminated: a line feed is added to a
non-empty text that does not end in one. -/
def terminated (b : QString) : QString :=
  if b = [] ∨ endsWithLineFeed b then b else b ++ ['\n']

/-- The flag that the specification gives to an effect name; 0 for a name
that is not recognised. -/
def effectFlag (name : QString) : Nat :=
  if name = "General".toList then 0x1
  else if name = "AnimateMenu".toList then 0x2
  else if name = "FadeMenu".toList then 0x4
  else if name = "AnimateCombo".toList then 0x8
  else if name = "AnimateTooltip".toList then 0x10
  else if name = "FadeTooltip".toList then 0x20
  else if name = "AnimateToolBox".toList then 0x40
  else 0

/-- The bitwise OR of the flags of the names of a list. -/
def effectsOfNames (names : List QString) : Nat :=
  names.foldl (fun e name => e ||| effectFlag name) 0

/-! ## Examples and auxiliary notions of the statements -/

/-- The two files of the example: `a.qss` holds `a/`, `b.qss` holds `/b // x`. -/
def exampleSheets (path : QString) : FileState :=
  if path = "a.qss".toList then .readable "a/".toList
  else if path = "b.qss".toList then .readable "/b // x".toList
  else .missing

/-- The test that a file can be opened and read. -/
def FileState.isReadable : FileState → Bool
  | .readable _ => true
  | _ => false

/-- The files of the example: `a.qss` is readable, `x.qss` cannot be opened. -/
def exampleUnreadable (path : QString) : FileState :=
  if path = "a.qss".toList then .readable "a".toList
  else if path = "x.qss".toList then .unreadable
  else .missing

/-- An example platform: a settings-aware widgets application at
`/usr/bin/app` with the hints of a generic Unix theme. -/
def examplePlatform : Platform :=
  { desktopSettingsAware := true
    hasWidgets := true
    applicationFilePath := "/usr/bin/app".toList
    genericThemeHint := fun hint =>
      match hint with
      | .CursorFlashTime => .int 1000
      | .MouseDoubleClickInterval => .int 400
      | .DialogButtonBoxLayout => .int 0
      | .KeyboardScheme => .int 2
      | .UiEffects => .int 0
      | .WheelScrollLines => .int 3
      | .ToolButtonStyle => .int 0
      | .ShowShortcutsInContextMenus => .bool true
      | .SystemIconThemeName => .string "hicolor".toList
      | _ => .invalid
    genericPalette := fun type => if type = 0 then some { colors := [0xefefef] } else none
    systemPalette := { colors := [0xefefef] }
    genericSystemFont := { family := "Sans Serif".toList, pointSize := 9, weight := 400,
                           italic := false }
    genericFixedFont := { family := "monospace".toList, pointSize := 9, weight := 400,
                          italic := false }
    fontFromString := fun f text => if text.isEmpty then f else { f with family := text }
    themeKeys := ["gtk3".toList, "xdgdesktopportal".toList]
    iconPaths := [] }

/-- An example configuration: the given settings, no style-sheet file, a
colour scheme loader that yields one dark palette. -/
def exampleConfig (settings : Settings) : Config :=
  { settings := settings
    files := fun _ => .missing
    resolvePath := fun path => path
    loadColorScheme := fun _ _ => { colors := [0x2d2d2d] } }

/-- An object whose previously applied fragment `old` heads the application
style sheet and whose new fragment is `new`. -/
def exampleApplied : Theme :=
  { Theme.initial examplePlatform "old\nQWidget".toList with
    m_update := true
    m_userStyleSheet := "new\n".toList
    m_prevStyleSheet := "old\n".toList }

/-- The settings of the example: the application `/usr/bin/app` is on the
ignored list, a custom palette and an icon theme are configured, and the
cursor flash time is set to 500. -/
def ignoringSettings : Settings :=
  fun group key =>
    if group = "Troubleshooting" ∧ key = "ignored_applications" then
      some (.stringList ["/usr/bin/other".toList, "/usr/bin/app".toList])
    else if group = "Appearance" ∧ key = "custom_palette" then some (.string "true".toList)
    else if group = "Appearance" ∧ key = "color_scheme_path" then
      some (.string "/usr/share/qt6ct/colors/darker.conf".toList)
    else if group = "Appearance" ∧ key = "icon_theme" then some (.string "Papirus".toList)
    else if group = "Interface" ∧ key = "cursor_flash_time" then some (.string "500".toList)
    else none

/-- The resolved integer attribute that belongs to a key of the group
`Interface`. -/
def interfaceInt (st : Theme) (key : String) : Option Int :=
  if key = "double_click_interval" then some st.m_doubleClickInterval
  else if key = "cursor_flash_time" then some st.m_cursorFlashTime
  else if key = "buttonbox_layout" then some st.m_buttonBoxLayout
  else if key = "keyboard_scheme" then some st.m_keyboardScheme
  else if key = "toolbutton_style" then some st.m_toolButtonStyle
  else if key = "wheel_scroll_lines" then some st.m_wheelScrollLines
  else none

/-- The integer keys of the group `Interface`. -/
def interfaceIntKeys : List String :=
  ["double_click_interval", "cursor_flash_time", "buttonbox_layout", "keyboard_scheme",
    "toolbutton_style", "wheel_scroll_lines"]

/-- A configuration with one more entry in the group `Interface`. -/
def Config.withInterface (cfg : Config) (key : String) (v : QVariant) : Config :=
  { cfg with settings := cfg.settings.insert "Interface" key v }

/-- The flag of a name when the list contains it, otherwise 0. -/
def flagIf (names : List QString) (name : QString) (flag : Nat) : Nat :=
  if names.contains name then flag else 0

/-- A configuration whose group `Interface` lists the two style sheets of
`exampleSheets`. -/
def exampleSheetConfig : Config :=
  { exampleConfig (Settings.empty.insert "Interface" "stylesheets"
      (.stringList ["a.qss".toList, "b.qss".toList])) with
    files := exampleSheets }

/-- The object of a process that was not on the ignored list when it started:
loaded from an empty configuration and applied. -/
def exampleRunning : Theme :=
  applySettings examplePlatform
    (readSettings examplePlatform (exampleConfig Settings.empty) (Theme.initial examplePlatform []))

/-- The object of a process that was on the ignored list when it started:
loaded from `ignoringSettings` and applied. -/
def exampleIgnored : Theme :=
  applySettings examplePlatform
    (readSettings examplePlatform (exampleConfig ignoringSettings)
      (Theme.initial examplePlatform []))

/-! # Theorems -/

/-! ## Style-sheet loading -/

theorem replaceComments_append_lineFeed (b : Bool) (x y : QString) :
    replaceComments b (x ++ '\n' :: y) =
      replaceComments b (x ++ ['\n']) ++ replaceComments false y := by
  induction x generalizing b with
  | nil => cases b <;> simp [replaceComments]
  | cons c x ih =>
    cases b with
    | true =>
      by_cases hc : c = '\n' <;> simp [replaceComments, hc, ih]
    | false =>
      have hhead : (x ++ '\n' :: y).head? = (x ++ ['\n']).head? := by
        cases x <;> simp
      by_cases hc : c = '/' ∧ (x ++ ['\n']).head? = some '/'
      · simp [replaceComments, hc, hhead, ih]
      · have hc2 : ¬ (c = '/' ∧ (x ++ '\n' :: y).head? = some '/' ∧ '\n' ∈ x ++ '\n' :: y) := by
          rw [hhead]; tauto
        have hc3 : ¬ (c = '/' ∧ (x ++ ['\n']).head? = some '/' ∧ '\n' ∈ x ++ ['\n']) := by
          tauto
        simp only [List.cons_append, replaceComments, List.append_eq, if_neg hc2, if_neg hc3, ih]

theorem endsWithLineFeed_append_singleton (x : QString) :
    endsWithLineFeed (x ++ ['\n']) = true := by
  simp [endsWithLineFeed]

theorem endsWithLineFeed_append (x y : QString) (hy : y ≠ []) :
    endsWithLineFeed (x ++ y) = endsWithLineFeed y := by
  cases hl : y.getLast? with
  | none => simp [List.getLast?_eq_none_iff] at hl; exact absurd hl hy
  | some c => simp [endsWithLineFeed, List.getLast?_append, hl]

theorem appendStyleSheet_missing (files : QString → FileState) (content path : QString)
    (h : (files path).fileExists = false) : appendStyleSheet files content path = content := by
  simp [appendStyleSheet, h]

theorem appendStyleSheet_endsWithLineFeed (files : QString → FileState) (content path : QString)
    (h : (files path).fileExists = true) :
    endsWithLineFeed (appendStyleSheet files content path) = true := by
  simp only [appendStyleSheet, h, if_true]
  by_cases he : endsWithLineFeed (content ++ (files path).readAll) = true
  · simp [he]
  · simp only [he]
    exact endsWithLineFeed_append_singleton _

theorem appendStyleSheet_unreadable (files : QString → FileState) (content path : QString)
    (h : files path = .unreadable) (hc : endsWithLineFeed content = true) :
    appendStyleSheet files content path = content := by
  simp [appendStyleSheet, h, FileState.fileExists, FileState.readAll, hc]

theorem foldl_appendStyleSheet_endsWithLineFeed (files : QString → FileState)
    (paths : List QString) (content : QString)
    (h : endsWithLineFeed content = true ∨ ∃ q ∈ paths, (files q).fileExists = true) :
    endsWithLineFeed (paths.foldl (appendStyleSheet files) content) = true := by
  induction paths generalizing content with
  | nil => simpa using h
  | cons q paths ih =>
    simp only [List.foldl_cons]
    apply ih
    by_cases hq : (files q).fileExists = true
    · exact Or.inl (appendStyleSheet_endsWithLineFeed files content q hq)
    · rw [appendStyleSheet_missing files content q (by simpa using hq)]
      rcases h with h | ⟨r, hr, hex⟩
      · exact Or.inl h
      · rcases List.mem_cons.mp hr with rfl | hr
        · exact absurd hex hq
        · exact Or.inr ⟨r, hr, hex⟩

theorem foldl_appendStyleSheet_filter (files : QString → FileState) (paths : List QString)
    (content : QString) :
    paths.foldl (appendStyleSheet files) content =
      (paths.filter (fun p => (files p).fileExists)).foldl (appendStyleSheet files) content := by
  induction paths generalizing content with
  | nil => rfl
  | cons q paths ih =>
    by_cases hq : (files q).fileExists = true
    · simp [List.filter_cons, hq, ih]
    · simp only [List.filter_cons, hq, List.foldl_cons]
      rw [appendStyleSheet_missing files content q (by simpa using hq)]
      simpa using ih content

theorem concatStyleSheets_pair (files : QString → FileState) (pa pb a b : QString)
    (ha : files pa = .readable a) (hb : files pb = .readable b)
    (hlast : endsWithLineFeed a = false) :
    concatStyleSheets files [pa, pb] = a ++ '\n' :: terminated b := by
  have h1 : appendStyleSheet files [] pa = a ++ ['\n'] := by
    simp [appendStyleSheet, ha, FileState.fileExists, FileState.readAll, hlast]
  simp only [concatStyleSheets, List.foldl_cons, List.foldl_nil, h1]
  simp only [appendStyleSheet, hb, FileState.fileExists, FileState.readAll, if_true]
  by_cases hbe : b = []
  · subst hbe
    simp [terminated, endsWithLineFeed_append_singleton]
  · rw [endsWithLineFeed_append _ _ hbe]
    by_cases he : endsWithLineFeed b = true <;> simp [terminated, hbe, he]

/-- C1: for readable files with contents `a` and `b`, where `a` does not end
with a line feed, `loadStyleSheets` of the two paths is the comment stripping
of the one text made of `a`, a line feed, and the content of `b` with its last
line terminated (an empty `b` adds nothing); the stripping runs once over that
whole text. Because of the inserted line feed the text splits at the fragment
boundary: the result is the stripping of `a` with its line feed followed by
the stripping of the terminated `b` alone. In particular, when `a` ends with
`/` and `b` begins with `/`, the two slashes never form a comment marker and
nothing of `b` is removed on their account. -/
theorem loadStyleSheets_pair (files : QString → FileState) (pa pb a b : QString)
    (ha : files pa = .readable a) (hb : files pb = .readable b)
    (hlast : endsWithLineFeed a = false) :
    loadStyleSheets files [pa, pb] = stripComments (a ++ '\n' :: terminated b) ∧
    loadStyleSheets files [pa, pb] =
      stripComments (a ++ ['\n']) ++ stripComments (terminated b) ∧
    (∀ a0 b0 : QString, a = a0 ++ ['/'] → b = '/' :: b0 →
      loadStyleSheets files [pa, pb] =
        stripComments (a0 ++ ['/', '\n']) ++ stripComments (terminated ('/' :: b0))) := by
  have h := concatStyleSheets_pair files pa pb a b ha hb hlast
  have h2 : loadStyleSheets files [pa, pb] =
      stripComments (a ++ ['\n']) ++ stripComments (terminated b) := by
    rw [loadStyleSheets, h, stripComments, replaceComments_append_lineFeed]
    rfl
  refine ⟨by rw [loadStyleSheets, h], h2, ?_⟩
  intro a0 b0 ha0 hb0
  rw [h2, ha0, hb0, List.append_assoc]
  rfl

/-- C1 at `a/` and `/b // x`: the boundary slashes stay, the comment of the
second file goes. -/
theorem loadStyleSheets_pair_witness :
    loadStyleSheets exampleSheets ["a.qss".toList, "b.qss".toList] = "a/\n/b \n".toList ∧
    loadStyleSheets exampleSheets ["a.qss".toList, "b.qss".toList] =
      stripComments ("a/".toList ++ '\n' :: terminated "/b // x".toList) ∧
    loadStyleSheets exampleSheets ["a.qss".toList, "b.qss".toList] =
      stripComments ("a".toList ++ ['/', '\n']) ++
        stripComments (terminated ('/' :: "b // x".toList)) :=
  ⟨by decide,
    (loadStyleSheets_pair exampleSheets "a.qss".toList "b.qss".toList "a/".toList
      "/b // x".toList (by decide) (by decide) (by decide)).1,
    (loadStyleSheets_pair exampleSheets "a.qss".toList "b.qss".toList "a/".toList
      "/b // x".toList (by decide) (by decide) (by decide)).2.2 "a".toList "b // x".toList
      (by decide) (by decide)⟩

/-- C7, as stated, fails: a file that exists but cannot be opened is not left
out. Alone in the list it yields one line feed, while the list without the
unreadable paths, here the empty list, yields the empty text. -/
theorem loadStyleSheets_unreadable_counterexample :
    exampleUnreadable "x.qss".toList = .unreadable ∧
    loadStyleSheets exampleUnreadable ["x.qss".toList] = ['\n'] ∧
    ["x.qss".toList].filter (fun p => (exampleUnreadable p).isReadable) = [] ∧
    loadStyleSheets exampleUnreadable
      (["x.qss".toList].filter (fun p => (exampleUnreadable p).isReadable)) = [] := by
  decide

/-- C7, amended: `loadStyleSheets` leaves out every missing file, and it reads
a file that exists but cannot be opened as an empty fragment. Such a file adds
no text; it is left out altogether when an existing file comes before it in
the list, and when only missing files come before it the text so far is the
single line feed. -/
theorem loadStyleSheets_omits_missing (files : QString → FileState) :
    (∀ paths : List QString,
      loadStyleSheets files paths =
        loadStyleSheets files (paths.filter (fun p => (files p).fileExists))) ∧
    (∀ (before after : List QString) (p : QString), files p = .unreadable →
      (∃ q ∈ before, (files q).fileExists = true) →
      loadStyleSheets files (before ++ p :: after) = loadStyleSheets files (before ++ after)) ∧
    (∀ (before : List QString) (p : QString), files p = .unreadable →
      (∀ q ∈ before, (files q).fileExists = false) →
      concatStyleSheets files (before ++ [p]) = ['\n']) := by
  refine ⟨?_, ?_, ?_⟩
  · intro paths
    simp only [loadStyleSheets, concatStyleSheets]
    rw [foldl_appendStyleSheet_filter]
  · intro before after p hp hq
    simp only [loadStyleSheets, concatStyleSheets, List.foldl_append, List.foldl_cons]
    rw [appendStyleSheet_unreadable files _ p hp
      (foldl_appendStyleSheet_endsWithLineFeed files before [] (Or.inr hq))]
  · intro before p hp hq
    have hnil : before.filter (fun p => (files p).fileExists) = [] := by
      simpa [List.filter_eq_nil_iff] using hq
    simp only [concatStyleSheets, List.foldl_append, List.foldl_cons, List.foldl_nil]
    rw [foldl_appendStyleSheet_filter, hnil]
    simp [appendStyleSheet, hp, FileState.fileExists, FileState.readAll, endsWithLineFeed]

/-- C7, amended, at a list with a missing, a readable and an unopenable file. -/
theorem loadStyleSheets_omits_missing_witness :
    loadStyleSheets exampleUnreadable ["m.qss".toList, "a.qss".toList, "x.qss".toList] =
      loadStyleSheets exampleUnreadable ["a.qss".toList, "x.qss".toList] ∧
    loadStyleSheets exampleUnreadable (["a.qss".toList] ++ "x.qss".toList :: []) =
      loadStyleSheets exampleUnreadable (["a.qss".toList] ++ []) ∧
    concatStyleSheets exampleUnreadable (["m.qss".toList] ++ ["x.qss".toList]) = ['\n'] :=
  ⟨(loadStyleSheets_omits_missing exampleUnreadable).1
      ["m.qss".toList, "a.qss".toList, "x.qss".toList],
    (loadStyleSheets_omits_missing exampleUnreadable).2.1 ["a.qss".toList] [] "x.qss".toList
      (by decide) ⟨"a.qss".toList, by decide, by decide⟩,
    (loadStyleSheets_omits_missing exampleUnreadable).2.2 ["m.qss".toList] "x.qss".toList
      (by decide) (by decide)⟩

/-! ## Applying the style sheet -/

theorem indexOfFrom_some (pos : Nat) (text str : QString) (i : Nat)
    (h : indexOfFrom pos text str = some i) :
    ∃ pre post, text = pre ++ str ++ post ∧ i = pos + pre.length ∧
      ∀ pre2 post2, text = pre2 ++ str ++ post2 → pre.length ≤ pre2.length := by
  induction text generalizing pos i with
  | nil =>
    simp only [indexOfFrom] at h
    by_cases hs : str = []
    · subst hs
      exact ⟨[], [], by simp, by simpa using h.symm, by simp⟩
    · simp [hs] at h
  | cons c cs ih =>
    simp only [indexOfFrom] at h
    by_cases hp : str.isPrefixOf (c :: cs) = true
    · rw [if_pos hp] at h
      obtain ⟨t, ht⟩ := List.isPrefixOf_iff_prefix.mp hp
      exact ⟨[], t, by simpa using ht.symm, by simpa using (Option.some.inj h).symm, by simp⟩
    · rw [if_neg hp] at h
      obtain ⟨pre, post, htext, hi, hmin⟩ := ih (pos + 1) i h
      refine ⟨c :: pre, post, by simp [htext], by simp [hi]; omega, ?_⟩
      intro pre2 post2 h2
      cases pre2 with
      | nil =>
        exfalso
        apply hp
        exact List.isPrefixOf_iff_prefix.mpr ⟨post2, by simpa using h2.symm⟩
      | cons d pre2 =>
        simp only [List.cons_append, List.cons.injEq] at h2
        have := hmin pre2 post2 h2.2
        simp only [List.length_cons]
        omega

theorem indexOfFrom_none (pos : Nat) (text str : QString)
    (h : indexOfFrom pos text str = none) : ¬ str <:+: text := by
  induction text generalizing pos with
  | nil =>
    simp only [indexOfFrom] at h
    by_cases hs : str = []
    · simp [hs] at h
    · simpa using hs
  | cons c cs ih =>
    simp only [indexOfFrom] at h
    by_cases hp : str.isPrefixOf (c :: cs) = true
    · rw [if_pos hp] at h
      exact absurd h (by simp)
    · rw [if_neg hp] at h
      rintro ⟨pre, post, hinf⟩
      cases pre with
      | nil =>
        apply hp
        exact List.isPrefixOf_iff_prefix.mpr ⟨post, by simpa using hinf⟩
      | cons d pre =>
        simp only [List.cons_append, List.cons.injEq] at hinf
        exact ih (pos + 1) h ⟨pre, post, hinf.2⟩

theorem remove_occurrence (pre str post : QString) :
    remove (pre ++ str ++ post) pre.length str.length = pre ++ post := by
  simp [remove, List.take_append_eq_append_take, List.drop_append_eq_append_drop]

/-- What `applySettings` does to a field that is neither `m_update` nor one of
the fields of the style-sheet block nor the notifications. -/
theorem applySettings_field {α : Type} (f : Theme → α) (plat : Platform) (st : Theme)
    (hupdate : ∀ (s : Theme) (b : Bool), f { s with m_update := b } = f s)
    (hnotify : ∀ (s : Theme) (ns : List Notification), f (s.notify ns) = f s)
    (hsheet : ∀ s : Theme, f (applyStyleSheet s) = f s) :
    f (applySettings plat st) = f st := by
  unfold applySettings
  split
  · exact hupdate st true
  · rw [hupdate]
    repeat (first | rfl | rw [hnotify] | rw [hsheet] | split)

theorem applyStyleSheet_eq (st : Theme) :
    applyStyleSheet st =
      if st.m_userStyleSheet = st.m_prevStyleSheet then st
      else
        match indexOf st.appStyleSheet st.m_prevStyleSheet with
        | some prevIndex =>
          { st with
            appStyleSheet :=
              st.m_userStyleSheet ++ remove st.appStyleSheet prevIndex st.m_prevStyleSheet.length,
            m_prevStyleSheet := st.m_userStyleSheet }
        | none => { st with m_prevStyleSheet := st.m_userStyleSheet } := by
  unfold applyStyleSheet
  by_cases h : st.m_userStyleSheet = st.m_prevStyleSheet
  · simp [h]
  · simp only [bne_iff_ne, ne_eq, h, not_false_eq_true, if_true, if_false]
    cases indexOf st.appStyleSheet st.m_prevStyleSheet <;> rfl

theorem applyStyleSheet_m_isIgnored (st : Theme) :
    (applyStyleSheet st).m_isIgnored = st.m_isIgnored := by
  rw [applyStyleSheet_eq]
  repeat (first | rfl | split)

theorem applyStyleSheet_m_update (st : Theme) :
    (applyStyleSheet st).m_update = st.m_update := by
  rw [applyStyleSheet_eq]
  repeat (first | rfl | split)

theorem applyStyleSheet_m_userStyleSheet (st : Theme) :
    (applyStyleSheet st).m_userStyleSheet = st.m_userStyleSheet := by
  rw [applyStyleSheet_eq]
  repeat (first | rfl | split)

theorem applyStyleSheet_m_prevStyleSheet (st : Theme) :
    (applyStyleSheet st).m_prevStyleSheet = st.m_userStyleSheet := by
  rw [applyStyleSheet_eq]
  split
  · rename_i h
    exact h.symm
  · split <;> rfl

theorem applyStyleSheet_appStyleSheet (st : Theme) :
    (applyStyleSheet st).appStyleSheet =
      if st.m_userStyleSheet = st.m_prevStyleSheet then st.appStyleSheet
      else
        match indexOf st.appStyleSheet st.m_prevStyleSheet with
        | some prevIndex =>
          st.m_userStyleSheet ++ remove st.appStyleSheet prevIndex st.m_prevStyleSheet.length
        | none => st.appStyleSheet := by
  rw [applyStyleSheet_eq]
  split
  · rfl
  · split <;> rfl

theorem applySettings_skipped (plat : Platform) (st : Theme)
    (h : plat.desktopSettingsAware = false ∨ st.m_isIgnored = true) :
    applySettings plat st = { st with m_update := true } := by
  unfold applySettings
  rcases h with h | h <;> simp [h]

theorem applySettings_m_update (plat : Platform) (st : Theme) :
    (applySettings plat st).m_update = true := by
  unfold applySettings
  split <;> rfl

theorem applySettings_m_isIgnored (plat : Platform) (st : Theme) :
    (applySettings plat st).m_isIgnored = st.m_isIgnored :=
  applySettings_field (fun s => s.m_isIgnored) plat st (fun _ _ => rfl) (fun _ _ => rfl)
    applyStyleSheet_m_isIgnored

theorem applySettings_m_userStyleSheet (plat : Platform) (st : Theme) :
    (applySettings plat st).m_userStyleSheet = st.m_userStyleSheet :=
  applySettings_field (fun s => s.m_userStyleSheet) plat st (fun _ _ => rfl) (fun _ _ => rfl)
    applyStyleSheet_m_userStyleSheet

theorem applySettings_styleSheets (plat : Platform) (st : Theme)
    (haware : plat.desktopSettingsAware = true) (hwidgets : plat.hasWidgets = true)
    (hign : st.m_isIgnored = false) :
    (applySettings plat st).m_prevStyleSheet = st.m_userStyleSheet ∧
    (applySettings plat st).appStyleSheet = (applyStyleSheet st).appStyleSheet := by
  unfold applySettings
  rw [haware, hign, hwidgets]
  simp only [Bool.not_true, Bool.or_self, Bool.false_eq_true, if_false, if_true, Bool.true_and]
  cases hu : st.m_update
  · simp only [Bool.false_eq_true, if_false, applyStyleSheet_m_update, hu]
    exact ⟨applyStyleSheet_m_prevStyleSheet st, trivial⟩
  · simp only [if_true, applyStyleSheet_m_update, Theme.notify, hu]
    refine ⟨applyStyleSheet_m_prevStyleSheet _, ?_⟩
    simp only [applyStyleSheet_appStyleSheet]

theorem applySettings_appStyleSheet_unchanged (plat : Platform) (st : Theme)
    (h : plat.desktopSettingsAware = false ∨ st.m_isIgnored = true ∨
      plat.hasWidgets = false ∨ st.m_userStyleSheet = st.m_prevStyleSheet) :
    (applySettings plat st).appStyleSheet = st.appStyleSheet := by
  by_cases haware : plat.desktopSettingsAware = true
  · by_cases hign : st.m_isIgnored = true
    · rw [applySettings_skipped plat st (Or.inr hign)]
    · by_cases hwidgets : plat.hasWidgets = true
      · have huser : st.m_userStyleSheet = st.m_prevStyleSheet := by
          rcases h with h | h | h | h
          · simp [h] at haware
          · exact absurd h hign
          · simp [h] at hwidgets
          · exact h
        rw [(applySettings_styleSheets plat st haware hwidgets (by simpa using hign)).2,
          applyStyleSheet_appStyleSheet, if_pos huser]
      · unfold applySettings
        have hw : plat.hasWidgets = false := by simpa using hwidgets
        rw [hw]
        simp only [Bool.false_eq_true, if_false, Bool.false_and]
        repeat (first | rfl | split)
  · rw [applySettings_skipped plat st (Or.inl (by simpa using haware))]

/-- C2: in `applySettings` of a widgets application that is settings-aware and
not ignored, with the new fragment different from the previously applied one:
if the previous fragment occurs in the application style sheet, the new
application style sheet is the new fragment followed by the old sheet with the
first occurrence of the previous fragment removed; if it does not occur, the
application style sheet stays exactly as it was. -/
theorem applySettings_styleSheet_delta (plat : Platform) (st : Theme)
    (haware : plat.desktopSettingsAware = true) (hwidgets : plat.hasWidgets = true)
    (hign : st.m_isIgnored = false) (hne : st.m_userStyleSheet ≠ st.m_prevStyleSheet) :
    (st.m_prevStyleSheet <:+: st.appStyleSheet →
      ∃ pre post, st.appStyleSheet = pre ++ st.m_prevStyleSheet ++ post ∧
        (∀ pre2 post2, st.appStyleSheet = pre2 ++ st.m_prevStyleSheet ++ post2 →
          pre.length ≤ pre2.length) ∧
        (applySettings plat st).appStyleSheet = st.m_userStyleSheet ++ (pre ++ post)) ∧
    (¬ st.m_prevStyleSheet <:+: st.appStyleSheet →
      (applySettings plat st).appStyleSheet = st.appStyleSheet) := by
  rw [(applySettings_styleSheets plat st haware hwidgets hign).2, applyStyleSheet_appStyleSheet,
    if_neg hne]
  cases hidx : indexOf st.appStyleSheet st.m_prevStyleSheet with
  | none =>
    have hnot := indexOfFrom_none 0 _ _ hidx
    exact ⟨fun h => absurd h hnot, fun _ => rfl⟩
  | some i =>
    obtain ⟨pre, post, htext, hi, hmin⟩ := indexOfFrom_some 0 _ _ i hidx
    refine ⟨fun _ => ⟨pre, post, htext, hmin, ?_⟩, fun h => absurd ⟨pre, post, htext.symm⟩ h⟩
    have hi2 : i = pre.length := by omega
    simp only [hi2]
    conv_lhs => rw [htext]
    rw [remove_occurrence]

/-- C2 at the example: the fragment `old` is replaced by `new`. -/
theorem applySettings_styleSheet_delta_witness :
    (applySettings examplePlatform exampleApplied).appStyleSheet = "new\nQWidget".toList ∧
    ∃ pre post, exampleApplied.appStyleSheet = pre ++ exampleApplied.m_prevStyleSheet ++ post ∧
      (∀ pre2 post2, exampleApplied.appStyleSheet = pre2 ++ exampleApplied.m_prevStyleSheet ++ post2 →
        pre.length ≤ pre2.length) ∧
      (applySettings examplePlatform exampleApplied).appStyleSheet =
        exampleApplied.m_userStyleSheet ++ (pre ++ post) :=
  ⟨by decide,
    (applySettings_styleSheet_delta examplePlatform exampleApplied rfl rfl rfl (by decide)).1
      ⟨[], "QWidget".toList, by decide⟩⟩

/-! ## Reloading -/

theorem readSettings_m_isIgnored_of_update (plat : Platform) (cfg : Config) (st : Theme)
    (h : st.m_update = true) : (readSettings plat cfg st).m_isIgnored = st.m_isIgnored := by
  simp [readSettings, h]

theorem readSettings_m_isIgnored_first (plat : Platform) (cfg : Config) (st : Theme)
    (h : st.m_update = false) :
    (readSettings plat cfg st).m_isIgnored =
      (cfg.settings.value "Troubleshooting" "ignored_applications"
        .invalid).toStringList.contains plat.applicationFilePath := by
  simp [readSettings, h]

theorem readSettings_m_userStyleSheet (plat : Platform) (cfg : Config) (st : Theme) :
    (readSettings plat cfg st).m_userStyleSheet =
      loadStyleSheets cfg.files
        (cfg.settings.value "Interface" "stylesheets" .invalid).toStringList :=
  rfl

/-- C3: running `updateSettings` (readSettings, then applySettings) twice in a
row on the same configuration leaves the application style sheet after the
second run equal to the one after the first run; when the style sheet is
applied at all (settings-aware widgets application, not ignored) this is
because the text resolved by the second `readSettings` equals the recorded
previously applied text. -/
theorem updateSettings_twice (plat : Platform) (cfg : Config) (st : Theme) :
    (updateSettings plat cfg (updateSettings plat cfg st)).appStyleSheet =
      (updateSettings plat cfg st).appStyleSheet ∧
    ((plat.desktopSettingsAware && plat.hasWidgets &&
        !(updateSettings plat cfg st).m_isIgnored) = true →
      (readSettings plat cfg (updateSettings plat cfg st)).m_userStyleSheet =
        (updateSettings plat cfg st).m_prevStyleSheet) := by
  have hprev : plat.desktopSettingsAware = true → plat.hasWidgets = true →
      (updateSettings plat cfg st).m_isIgnored = false →
      (readSettings plat cfg (updateSettings plat cfg st)).m_userStyleSheet =
        (updateSettings plat cfg st).m_prevStyleSheet := by
    intro haware hwidgets hign
    have hign1 : (readSettings plat cfg st).m_isIgnored = false := by
      rw [← applySettings_m_isIgnored plat]; exact hign
    rw [updateSettings, (applySettings_styleSheets plat _ haware hwidgets hign1).1]
    rfl
  refine ⟨?_, ?_⟩
  · show (applySettings plat (readSettings plat cfg (updateSettings plat cfg st))).appStyleSheet = _
    have hupd : (updateSettings plat cfg st).m_update = true := applySettings_m_update plat _
    rw [applySettings_appStyleSheet_unchanged]
    · rfl
    · by_cases haware : plat.desktopSettingsAware = true
      · by_cases hwidgets : plat.hasWidgets = true
        · by_cases hign : (updateSettings plat cfg st).m_isIgnored = true
          · right; left
            rw [readSettings_m_isIgnored_of_update plat cfg _ hupd]
            exact hign
          · right; right; right
            exact hprev haware hwidgets (by simpa using hign)
        · right; right; left
          simpa using hwidgets
      · left
        simpa using haware
  · intro h
    simp only [Bool.and_eq_true, Bool.not_eq_true', Bool.not_eq_eq_eq_not, Bool.not_true] at h
    exact hprev h.1.1 h.1.2 h.2

theorem reloads_ignored (plat : Platform) (later : List Config) (st : Theme)
    (hupdate : st.m_update = true) (hign : st.m_isIgnored = true) :
    (reloads plat later st).m_isIgnored = true := by
  induction later generalizing st with
  | nil => exact hign
  | cons cfg later ih =>
    simp only [reloads, List.foldl_cons]
    apply ih
    · exact applySettings_m_update plat _
    · rw [updateSettings, applySettings_m_isIgnored,
        readSettings_m_isIgnored_of_update plat cfg st hupdate]
      exact hign

theorem themeHint_of_ignored (plat : Platform) (st : Theme) (hint : ThemeHint)
    (h : st.m_isIgnored = true) : themeHint plat st hint = plat.genericThemeHint hint := by
  simp [themeHint, h]

/-- C4: when the list `Troubleshooting/ignored_applications` of the
configuration contains the path of the running executable, the first
`readSettings` (the one that finds `m_update` false) marks the object
ignored, and from then on, that is right after it, after the first
`applySettings` and after any number of reloads with any configurations,
`themeHint` returns the hint of the generic Unix theme for every hint,
whatever the other settings are. -/
theorem themeHint_ignored (plat : Platform) (cfg : Config) (st : Theme) (later : List Config)
    (hint : ThemeHint) (hfirst : st.m_update = false)
    (hlist : plat.applicationFilePath ∈
      (cfg.settings.value "Troubleshooting" "ignored_applications" .invalid).toStringList) :
    (readSettings plat cfg st).m_isIgnored = true ∧
    themeHint plat (readSettings plat cfg st) hint = plat.genericThemeHint hint ∧
    themeHint plat (reloads plat later (applySettings plat (readSettings plat cfg st))) hint =
      plat.genericThemeHint hint := by
  have hign : (readSettings plat cfg st).m_isIgnored = true := by
    rw [readSettings_m_isIgnored_first plat cfg st hfirst]
    simpa using hlist
  refine ⟨hign, themeHint_of_ignored plat _ hint hign, ?_⟩
  apply themeHint_of_ignored
  apply reloads_ignored
  · exact applySettings_m_update plat _
  · rw [applySettings_m_isIgnored]
    exact hign

/-- C4 at the example: the configured cursor flash time 500 is not reported,
the generic 1000 is, also after a reload with a configuration that no longer
lists the application. -/
theorem themeHint_ignored_witness :
    themeHint examplePlatform
        (reloads examplePlatform [exampleConfig Settings.empty]
          (applySettings examplePlatform
            (readSettings examplePlatform (exampleConfig ignoringSettings)
              (Theme.initial examplePlatform []))))
        .CursorFlashTime = .int 1000 :=
  (themeHint_ignored examplePlatform (exampleConfig ignoringSettings)
    (Theme.initial examplePlatform []) [exampleConfig Settings.empty] .CursorFlashTime rfl
    (by decide)).2.2

/-! ## Resolution of the settings -/

/-- C6, as stated, fails: with `wheel_scroll_lines=abc` the attribute resolves
to 0, while with the key absent it resolves to its default 3. -/
theorem readSettings_malformed_counterexample :
    (readSettings examplePlatform
        ((exampleConfig Settings.empty).withInterface "wheel_scroll_lines" (.string "abc".toList))
        (Theme.initial examplePlatform [])).m_wheelScrollLines = 0 ∧
    (readSettings examplePlatform (exampleConfig Settings.empty)
        (Theme.initial examplePlatform [])).m_wheelScrollLines = 3 := by
  decide

/-- C6, amended: when an integer key of the group `Interface` is present with
a text that is not a decimal integer, `readSettings` resolves the attribute to
0, the result of the failed conversion, and not to the default of the key; the
attributes of the other keys are resolved as they are without that entry. -/
theorem readSettings_malformed_zero (plat : Platform) (cfg : Config) (st : Theme)
    (key : String) (v : QString) (hkey : key ∈ interfaceIntKeys)
    (hv : parseDecimal v = none) :
    interfaceInt (readSettings plat (cfg.withInterface key (.string v)) st) key = some 0 ∧
    (∀ other : String, other ≠ key →
      interfaceInt (readSettings plat (cfg.withInterface key (.string v)) st) other =
        interfaceInt (readSettings plat cfg st) other) ∧
    (readSettings plat (cfg.withInterface key (.string v)) st).m_showShortcutsInContextMenus =
      (readSettings plat cfg st).m_showShortcutsInContextMenus := by
  have hzero : (QVariant.string v).toInt = 0 := by simp [QVariant.toInt, qstringToInt, hv]
  simp only [interfaceIntKeys, List.mem_cons, List.mem_singleton, List.not_mem_nil, or_false] at hkey
  rcases hkey with rfl | rfl | rfl | rfl | rfl | rfl
  all_goals
    refine ⟨?_, ?_, ?_⟩
    · simp [interfaceInt, readSettings, Config.withInterface, Settings.insert, Settings.value, hzero]
    · intro other hother
      simp only [interfaceInt, readSettings, Config.withInterface, Settings.insert, Settings.value]
      repeat (first | rfl | split | simp_all)
    · simp [readSettings, Config.withInterface, Settings.insert, Settings.value]

/-- C6, amended, at `toolbutton_style=big` next to `wheel_scroll_lines=5`. -/
theorem readSettings_malformed_zero_witness :
    interfaceInt
      (readSettings examplePlatform
        (((exampleConfig Settings.empty).withInterface "wheel_scroll_lines"
          (.string "5".toList)).withInterface "toolbutton_style" (.string "big".toList))
        (Theme.initial examplePlatform [])) "toolbutton_style" = some 0 ∧
    interfaceInt
      (readSettings examplePlatform
        (((exampleConfig Settings.empty).withInterface "wheel_scroll_lines"
          (.string "5".toList)).withInterface "toolbutton_style" (.string "big".toList))
        (Theme.initial examplePlatform [])) "wheel_scroll_lines" = some 5 :=
  ⟨(readSettings_malformed_zero examplePlatform
      ((exampleConfig Settings.empty).withInterface "wheel_scroll_lines" (.string "5".toList))
      (Theme.initial examplePlatform []) "toolbutton_style" "big".toList (by decide)
      (by decide)).1,
    by decide⟩

/-- C9: in `readSettings` every absent key of the group `Interface` resolves
to its default, whatever else the configuration holds (so no present key
changes it): `double_click_interval`, `cursor_flash_time`, `buttonbox_layout`
and `keyboard_scheme` to the hint of the generic Unix theme,
`toolbutton_style` to `ToolButtonFollowStyle`, `wheel_scroll_lines` to 3 and
`show_shortcuts_in_context_menus` to true. A configuration that holds only
`double_click_interval=250` resolves to the double-click interval 250 and to
the cursor flash time of the generic theme. -/
theorem readSettings_defaults (plat : Platform) (cfg : Config) (st : Theme) :
    (cfg.settings "Interface" "double_click_interval" = none →
      (readSettings plat cfg st).m_doubleClickInterval =
        (plat.genericThemeHint .MouseDoubleClickInterval).toInt) ∧
    (cfg.settings "Interface" "cursor_flash_time" = none →
      (readSettings plat cfg st).m_cursorFlashTime =
        (plat.genericThemeHint .CursorFlashTime).toInt) ∧
    (cfg.settings "Interface" "buttonbox_layout" = none →
      (readSettings plat cfg st).m_buttonBoxLayout =
        (plat.genericThemeHint .DialogButtonBoxLayout).toInt) ∧
    (cfg.settings "Interface" "keyboard_scheme" = none →
      (readSettings plat cfg st).m_keyboardScheme =
        (plat.genericThemeHint .KeyboardScheme).toInt) ∧
    (cfg.settings "Interface" "toolbutton_style" = none →
      (readSettings plat cfg st).m_toolButtonStyle = ToolButtonFollowStyle) ∧
    (cfg.settings "Interface" "wheel_scroll_lines" = none →
      (readSettings plat cfg st).m_wheelScrollLines = 3) ∧
    (cfg.settings "Interface" "show_shortcuts_in_context_menus" = none →
      (readSettings plat cfg st).m_showShortcutsInContextMenus = true) ∧
    ((readSettings plat
        { cfg with
          settings := Settings.empty.insert "Interface" "double_click_interval"
            (.string "250".toList) } st).m_doubleClickInterval = 250 ∧
      (readSettings plat
        { cfg with
          settings := Settings.empty.insert "Interface" "double_click_interval"
            (.string "250".toList) } st).m_cursorFlashTime =
        (plat.genericThemeHint .CursorFlashTime).toInt) := by
  refine ⟨?_, ?_, ?_, ?_, ?_, ?_, ?_, ?_, ?_⟩
  · intro h; simp [readSettings, Settings.value, h, QVariant.toInt]
  · intro h; simp [readSettings, Settings.value, h, QVariant.toInt]
  · intro h; simp [readSettings, Settings.value, h, QVariant.toInt]
  · intro h; simp [readSettings, Settings.value, h, QVariant.toInt]
  · intro h; simp [readSettings, Settings.value, h, QVariant.toInt]
  · intro h; simp [readSettings, Settings.value, h, QVariant.toInt]
  · intro h; simp [readSettings, Settings.value, h, QVariant.toBool]
  · rfl
  · rfl

/-- C9 at the example platform, with `wheel_scroll_lines=5` present and
`cursor_flash_time` absent: the cursor flash time is the generic 1000. -/
theorem readSettings_defaults_witness :
    (readSettings examplePlatform
        ((exampleConfig Settings.empty).withInterface "wheel_scroll_lines" (.string "5".toList))
        (Theme.initial examplePlatform [])).m_cursorFlashTime = 1000 :=
  (readSettings_defaults examplePlatform
      ((exampleConfig Settings.empty).withInterface "wheel_scroll_lines" (.string "5".toList))
      (Theme.initial examplePlatform [])).2.1 (by decide)

theorem foldl_effectFlag (names : List QString) (e : Nat) :
    names.foldl (fun e name => e ||| effectFlag name) e = e ||| effectsOfNames names := by
  induction names generalizing e with
  | nil => simp [effectsOfNames]
  | cons name names ih =>
    simp only [effectsOfNames, List.foldl_cons]
    rw [ih, ih (0 ||| effectFlag name)]
    simp [Nat.lor_assoc]

theorem effectsOfNames_cons (name : QString) (names : List QString) :
    effectsOfNames (name :: names) = effectFlag name ||| effectsOfNames names := by
  simp only [effectsOfNames, List.foldl_cons]
  rw [foldl_effectFlag]
  simp [effectsOfNames]

theorem loadEffects_eq_flags (names : List QString) :
    loadEffects names =
      flagIf names "General".toList 0x1 ||| (flagIf names "AnimateMenu".toList 0x2 |||
        (flagIf names "FadeMenu".toList 0x4 ||| (flagIf names "AnimateCombo".toList 0x8 |||
          (flagIf names "AnimateTooltip".toList 0x10 ||| (flagIf names "FadeTooltip".toList 0x20 |||
            flagIf names "AnimateToolBox".toList 0x40))))) := by
  simp only [loadEffects, flagIf]
  generalize names.contains "General".toList = c1
  generalize names.contains "AnimateMenu".toList = c2
  generalize names.contains "FadeMenu".toList = c3
  generalize names.contains "AnimateCombo".toList = c4
  generalize names.contains "AnimateTooltip".toList = c5
  generalize names.contains "FadeTooltip".toList = c6
  generalize names.contains "AnimateToolBox".toList = c7
  cases c1 <;> cases c2 <;> cases c3 <;> cases c4 <;> cases c5 <;> cases c6 <;> cases c7 <;> rfl

theorem flagIf_cons (name : QString) (names : List QString) (n : QString) (flag : Nat) :
    flagIf (name :: names) n flag = (if name = n then flag else 0) ||| flagIf names n flag := by
  simp only [flagIf, List.contains_cons]
  by_cases h1 : name = n
  · subst h1
    cases names.contains name <;> simp
  · have h3 : (n == name) = false := by
      simpa using fun h => h1 h.symm
    rw [h3, if_neg h1]
    simp

theorem effectFlag_eq_flags (name : QString) :
    effectFlag name =
      (if name = "General".toList then 0x1 else 0) |||
        ((if name = "AnimateMenu".toList then 0x2 else 0) |||
          ((if name = "FadeMenu".toList then 0x4 else 0) |||
            ((if name = "AnimateCombo".toList then 0x8 else 0) |||
              ((if name = "AnimateTooltip".toList then 0x10 else 0) |||
                ((if name = "FadeTooltip".toList then 0x20 else 0) |||
                  (if name = "AnimateToolBox".toList then 0x40 else 0)))))) := by
  unfold effectFlag
  by_cases h1 : name = "General".toList
  · subst h1; decide
  by_cases h2 : name = "AnimateMenu".toList
  · subst h2; decide
  by_cases h3 : name = "FadeMenu".toList
  · subst h3; decide
  by_cases h4 : name = "AnimateCombo".toList
  · subst h4; decide
  by_cases h5 : name = "AnimateTooltip".toList
  · subst h5; decide
  by_cases h6 : name = "FadeTooltip".toList
  · subst h6; decide
  by_cases h7 : name = "AnimateToolBox".toList
  · subst h7; decide
  simp only [if_neg h1, if_neg h2, if_neg h3, if_neg h4, if_neg h5, if_neg h6, if_neg h7]
  rfl

theorem lor_interleave (a1 a2 a3 a4 a5 a6 a7 b1 b2 b3 b4 b5 b6 b7 : Nat) :
    (a1 ||| b1) ||| ((a2 ||| b2) ||| ((a3 ||| b3) ||| ((a4 ||| b4) ||| ((a5 ||| b5) |||
      ((a6 ||| b6) ||| (a7 ||| b7)))))) =
    (a1 ||| (a2 ||| (a3 ||| (a4 ||| (a5 ||| (a6 ||| a7)))))) |||
      (b1 ||| (b2 ||| (b3 ||| (b4 ||| (b5 ||| (b6 ||| b7)))))) := by
  apply Nat.eq_of_testBit_eq
  intro i
  simp only [Nat.testBit_lor]
  cases a1.testBit i <;> cases a2.testBit i <;> cases a3.testBit i <;> cases a4.testBit i <;>
    cases a5.testBit i <;> cases a6.testBit i <;> cases a7.testBit i <;> simp

theorem loadEffects_eq_effectsOfNames (names : List QString) :
    loadEffects names = effectsOfNames names := by
  induction names with
  | nil => decide
  | cons name names ih =>
    rw [effectsOfNames_cons, ← ih, loadEffects_eq_flags, loadEffects_eq_flags,
      effectFlag_eq_flags]
    simp only [flagIf_cons]
    exact lor_interleave _ _ _ _ _ _ _ _ _ _ _ _ _ _

/-- C8: the effects that `readSettings` resolves. Without the key
`gui_effects` in the group `Interface` they are the `UiEffects` hint of the
generic Unix theme. With the key present, whatever its value, they are exactly
the bitwise OR of the flags of the recognised names in its list: nothing of
the platform value is kept, a name that is not recognised adds nothing, and
the empty list gives 0. -/
theorem readSettings_uiEffects (plat : Platform) (cfg : Config) (st : Theme) :
    (cfg.settings "Interface" "gui_effects" = none →
      (readSettings plat cfg st).m_uiEffects = (plat.genericThemeHint .UiEffects).toInt) ∧
    (∀ v : QVariant, cfg.settings "Interface" "gui_effects" = some v →
      (readSettings plat cfg st).m_uiEffects = (effectsOfNames v.toStringList : Int)) ∧
    effectsOfNames [] = 0 ∧
    (∀ (name : QString) (names : List QString), effectFlag name = 0 →
      effectsOfNames (name :: names) = effectsOfNames names) ∧
    (∀ names : List QString,
      effectsOfNames names = effectsOfNames (names.filter (fun name => effectFlag name != 0))) := by
  refine ⟨?_, ?_, rfl, ?_, ?_⟩
  · intro h
    simp [readSettings, Settings.hasKey, h]
  · intro v h
    simp [readSettings, Settings.hasKey, Settings.value, h, loadEffects_eq_effectsOfNames]
  · intro name names h
    rw [effectsOfNames_cons, h, Nat.zero_or]
  · intro names
    induction names with
    | nil => rfl
    | cons name names ih =>
      by_cases h : effectFlag name = 0
      · simp [List.filter_cons, h, effectsOfNames_cons, ih]
      · simp [List.filter_cons, h, effectsOfNames_cons, ← ih]

/-- C8 at `gui_effects=General, Glow, FadeMenu` on a platform whose effect
hint is 0x80: the result is 0x5. -/
theorem readSettings_uiEffects_witness :
    (readSettings { examplePlatform with genericThemeHint := fun _ => .int 0x80 }
        ((exampleConfig Settings.empty).withInterface "gui_effects"
          (.stringList ["General".toList, "Glow".toList, "FadeMenu".toList]))
        (Theme.initial examplePlatform [])).m_uiEffects = 0x5 ∧
    (readSettings { examplePlatform with genericThemeHint := fun _ => .int 0x80 }
        (exampleConfig Settings.empty) (Theme.initial examplePlatform [])).m_uiEffects = 0x80 :=
  ⟨((readSettings_uiEffects { examplePlatform with genericThemeHint := fun _ => .int 0x80 }
      ((exampleConfig Settings.empty).withInterface "gui_effects"
        (.stringList ["General".toList, "Glow".toList, "FadeMenu".toList]))
      (Theme.initial examplePlatform [])).2.1 _ rfl).trans (by decide),
    (readSettings_uiEffects { examplePlatform with genericThemeHint := fun _ => .int 0x80 }
      (exampleConfig Settings.empty) (Theme.initial examplePlatform [])).1 rfl⟩

/-- C3 at the example: the first run puts the loaded text in front of the
application style sheet, the second run changes nothing. -/
theorem updateSettings_twice_witness :
    (updateSettings examplePlatform exampleSheetConfig
        (Theme.initial examplePlatform "QWidget".toList)).appStyleSheet =
      "a/\n/b \nQWidget".toList ∧
    (updateSettings examplePlatform exampleSheetConfig
        (updateSettings examplePlatform exampleSheetConfig
          (Theme.initial examplePlatform "QWidget".toList))).appStyleSheet =
      (updateSettings examplePlatform exampleSheetConfig
        (Theme.initial examplePlatform "QWidget".toList)).appStyleSheet ∧
    (readSettings examplePlatform exampleSheetConfig
        (updateSettings examplePlatform exampleSheetConfig
          (Theme.initial examplePlatform "QWidget".toList))).m_userStyleSheet =
      (updateSettings examplePlatform exampleSheetConfig
        (Theme.initial examplePlatform "QWidget".toList)).m_prevStyleSheet :=
  ⟨by decide,
    (updateSettings_twice examplePlatform exampleSheetConfig
      (Theme.initial examplePlatform "QWidget".toList)).1,
    (updateSettings_twice examplePlatform exampleSheetConfig
      (Theme.initial examplePlatform "QWidget".toList)).2 (by decide)⟩

/-! ## Ignored applications and the palette -/

/-- C5, as stated, fails. The ignored list is read on the first load only
(line 355), so in a process that started off the list a reload of a
configuration that lists its executable still builds the custom palette:
`palette()` returns it and not the palette of the generic theme, and the
object holds the configured icon theme. -/
theorem readSettings_ignored_counterexample :
    examplePlatform.applicationFilePath ∈
      (ignoringSettings.value "Troubleshooting" "ignored_applications" .invalid).toStringList ∧
    (readSettings examplePlatform (exampleConfig ignoringSettings) exampleRunning).m_palette =
      some { colors := [0x2d2d2d] } ∧
    palette examplePlatform
        (readSettings examplePlatform (exampleConfig ignoringSettings) exampleRunning) 0 ≠
      examplePlatform.genericPalette 0 ∧
    (readSettings examplePlatform (exampleConfig ignoringSettings) exampleRunning).m_iconTheme =
      "Papirus".toList := by
  decide

/-- The first load of a configuration that lists the executable and enables a
custom palette: line 283 tests `m_isIgnored` before line 358 sets it, so the
object comes out marked ignored and holding the custom palette. -/
theorem readSettings_first_load_palette :
    (readSettings examplePlatform (exampleConfig ignoringSettings)
        (Theme.initial examplePlatform [])).m_isIgnored = true ∧
    (readSettings examplePlatform (exampleConfig ignoringSettings)
        (Theme.initial examplePlatform [])).m_palette = some { colors := [0x2d2d2d] } := by
  decide

/-- C5, amended: once the object is marked ignored and the first load has
been applied, every `readSettings`, whatever `custom_palette` and
`color_scheme_path` say, leaves it ignored and without a custom palette, so
`palette()` returns the palette of the generic Unix theme and `themeHint` the
generic hints. The object is not reset to defaults: style, icon theme and
fonts are still resolved from the configuration and held in it. -/
theorem readSettings_ignored_no_palette (plat : Platform) (cfg : Config) (st : Theme)
    (hign : st.m_isIgnored = true) (hupdate : st.m_update = true) :
    (readSettings plat cfg st).m_isIgnored = true ∧
    (readSettings plat cfg st).m_palette = none ∧
    (∀ type : Nat, palette plat (readSettings plat cfg st) type = plat.genericPalette type) ∧
    (∀ hint : ThemeHint,
      themeHint plat (readSettings plat cfg st) hint = plat.genericThemeHint hint) ∧
    (readSettings plat cfg st).m_style =
      (cfg.settings.value "Appearance" "style" (.string "Fusion".toList)).toQString ∧
    (readSettings plat cfg st).m_iconTheme =
      (cfg.settings.value "Appearance" "icon_theme" .invalid).toQString ∧
    font (readSettings plat cfg st) false =
      plat.fontFromString plat.genericSystemFont
        (cfg.settings.value "Fonts" "general" .invalid).toQString ∧
    font (readSettings plat cfg st) true =
      plat.fontFromString plat.genericFixedFont
        (cfg.settings.value "Fonts" "fixed" .invalid).toQString := by
  have h1 : (readSettings plat cfg st).m_isIgnored = true := by
    rw [readSettings_m_isIgnored_of_update plat cfg st hupdate]; exact hign
  have h2 : (readSettings plat cfg st).m_palette = none := by
    simp [readSettings, hign]
  refine ⟨h1, h2, ?_, fun hint => themeHint_of_ignored plat _ hint h1, rfl, rfl, rfl, rfl⟩
  intro type
  simp [palette, h2]

/-- C5, amended, at the example: after a reload the palette is the generic
one, the icon theme is the configured one. -/
theorem readSettings_ignored_no_palette_witness :
    palette examplePlatform
        (readSettings examplePlatform (exampleConfig ignoringSettings) exampleIgnored) 0 =
      some { colors := [0xefefef] } ∧
    (readSettings examplePlatform (exampleConfig ignoringSettings) exampleIgnored).m_iconTheme =
      "Papirus".toList :=
  ⟨(readSettings_ignored_no_palette examplePlatform (exampleConfig ignoringSettings)
      exampleIgnored (by decide) (by decide)).2.2.1 0,
    by decide⟩

/-! ## Debouncing -/

theorem notifications_burst (ts : List Nat) (t : Nat) (w : Watcher)
    (hexpiry : w.expiry = some (t + debounceInterval)) (hnone : w.reloadTimes = [])
    (hburst : List.Chain (fun a b => a ≤ b ∧ b < a + debounceInterval) t ts) :
    (Watcher.notifications ts w).expiry = some (ts.getLastD t + debounceInterval) ∧
    (Watcher.notifications ts w).reloadTimes = [] := by
  induction ts generalizing t w with
  | nil => exact ⟨hexpiry, hnone⟩
  | cons b ts ih =>
    rw [List.chain_cons] at hburst
    have hstep : w.directoryChanged b = { expiry := some (b + debounceInterval), reloadTimes := [] } := by
      have hlt : ¬ t + debounceInterval ≤ b := by omega
      simp [Watcher.directoryChanged, Watcher.elapse, hexpiry, hlt, hnone]
    rw [List.getLastD_cons]
    exact ih b (w.directoryChanged b) (by rw [hstep]) (by rw [hstep]) hburst.2

/-- C10: for a burst of one or more `directoryChanged` notifications in which
each one comes less than the 3000 ms of the timer after the one before,
starting with the timer not running: no reload is triggered during the burst
or before a full interval has passed since the last notification, the timer
is pending with the single expiry time "last notification plus 3000", and once
that time is reached `updateSettings` has been triggered exactly once, at that
time, however much later one looks. A notification restarts the one timer, so
there is never a second pending reload. -/
theorem debounce_burst (t : Nat) (ts : List Nat)
    (hburst : List.Chain (fun a b => a ≤ b ∧ b < a + debounceInterval) t ts) :
    (Watcher.notifications (t :: ts) Watcher.idle).expiry =
      some (ts.getLastD t + debounceInterval) ∧
    (Watcher.notifications (t :: ts) Watcher.idle).reloadTimes = [] ∧
    (∀ now : Nat, now < ts.getLastD t + debounceInterval →
      ((Watcher.notifications (t :: ts) Watcher.idle).elapse now).reloadTimes = []) ∧
    (∀ now later : Nat, ts.getLastD t + debounceInterval ≤ now → now ≤ later →
      ((Watcher.notifications (t :: ts) Watcher.idle).elapse now).reloadTimes =
        [ts.getLastD t + debounceInterval] ∧
      ((Watcher.notifications (t :: ts) Watcher.idle).elapse now).expiry = none ∧
      (((Watcher.notifications (t :: ts) Watcher.idle).elapse now).elapse later).reloadTimes =
        [ts.getLastD t + debounceInterval]) := by
  have h := notifications_burst ts t (Watcher.idle.directoryChanged t) rfl rfl hburst
  have hcons : Watcher.notifications (t :: ts) Watcher.idle =
      Watcher.notifications ts (Watcher.idle.directoryChanged t) := rfl
  rw [hcons]
  obtain ⟨h1, h2⟩ := h
  generalize Watcher.notifications ts (Watcher.idle.directoryChanged t) = w at h1 h2 ⊢
  generalize ts.getLastD t + debounceInterval = e at h1 ⊢
  refine ⟨h1, h2, ?_, ?_⟩
  · intro now hnow
    have hlt : ¬ e ≤ now := by omega
    simp [Watcher.elapse, h1, h2, hlt]
  · intro now later hnow _
    simp [Watcher.elapse, h1, h2, hnow]

/-- C10 at notifications at 0, 1000, 2500 and 5000 ms: nothing has been
reloaded at 7999 ms, one reload at 8000 ms is all there is at 20000 ms. -/
theorem debounce_burst_witness :
    ((Watcher.notifications [0, 1000, 2500, 5000] Watcher.idle).elapse 7999).reloadTimes = [] ∧
    (((Watcher.notifications [0, 1000, 2500, 5000] Watcher.idle).elapse 8000).elapse
      20000).reloadTimes = [8000] :=
  ⟨(debounce_burst 0 [1000, 2500, 5000] (by simp [debounceInterval])).2.2.1 7999 (by decide),
    ((debounce_burst 0 [1000, 2500, 5000] (by simp [debounceInterval])).2.2.2 8000 20000 (by decide)
      (by decide)).2.2⟩

end Qt6ct
